import Mathlib

/-
A shallow embedding of the core modules of the ai_engine repository
(ai_core/tools.py, ai_core/types.py, ai_core/models.py, ai_core/pricing.py,
ai_core/tokens.py, ai_core/wrappers/base.py, ai_core/wrappers/google.py,
ai_core/wrappers/mock.py, ai_core/client.py), together with theorems that
check the design specification against the code.

Conventions used throughout:
- Python `str` is Lean `String`; `Optional[T]` is `Option T`.
- Python dicts (which preserve insertion order) are association lists
  `List (String × τ)`.
- Python functions that can `raise` are total Lean functions returning
  `Except String α`, the error payload being the exception message.
- Python float literals in the pricing table are modelled as exact
  rationals (`ℚ`).
- Apostrophes inside Python error-message literals are written with the
  escape `\x27`.
-/

/-- Helper: wrap a string in single quotes, as Python f-strings with
`'{x}'` do in the error messages of the source. -/
def pyQuote (s : String) : String := "\x27" ++ s ++ "\x27"

/-- Result test for `Except`, used to state success/failure conditions. -/
def exceptOk {ε α : Type} : Except ε α → Bool
  | .ok _ => true
  | .error _ => false

/-! ## ai_core/tools.py -/

/-- The declared Python type annotation of a tool parameter, as inspected by
`_get_parameter_type` in ai_core/tools.py.  `literal` carries the `str(arg)`
of each argument of a `typing.Literal[...]` type; `enumType` carries the
(name, value) pairs of the members of an `enum.Enum` subclass; `other` is
any annotation matching none of the explicitly handled cases. -/
inductive PyType where
  | str
  | int
  | float
  | bool
  | literal (args : List String)
  | enumType (members : List (String × String))
  | other
deriving DecidableEq

/-- ToolParameter dataclass of ai_core/tools.py. -/
structure ToolParameter where
  type : String
  description : String
  required : Bool
  enum : Option (List String)
deriving DecidableEq

/-- Tool dataclass of ai_core/tools.py.  The `func` field (the wrapped
callable itself) is not representable in the embedding and is dropped;
`parameters` is the insertion-ordered dict of parameter name to
ToolParameter. -/
structure Tool where
  name : String
  description : String
  parameters : List (String × ToolParameter)
  safe : Bool
deriving DecidableEq

/-- ToolCall dataclass of ai_core/tools.py.  Argument values are opaque to
the core (`Dict[str, Any]`) and are modelled as strings. -/
structure ToolCall where
  name : String
  arguments : List (String × String)
  id : Option String
deriving DecidableEq

/-- ToolResult dataclass of ai_core/tools.py.  The opaque `result: Any`
payload is modelled as an optional string. -/
structure ToolResult where
  name : String
  result : Option String
  tool_call_id : Option String
  error : Option String
deriving DecidableEq

/-- `_get_parameter_type` of ai_core/tools.py: converts a declared Python
type to the (tool parameter type, optional enum values) pair.  The branches
follow the source in order: `str`, `int`, `float`, `bool`, `Literal`
(enum from `str(arg)` of the literal arguments), `Enum` subclass (enum from
the member names), default. -/
def _get_parameter_type : PyType → String × Option (List String)
  | .str => ("string", none)
  | .int => ("integer", none)
  | .float => ("number", none)
  | .bool => ("boolean", none)
  | .literal args => ("string", some args)
  | .enumType members => ("string", some (members.map Prod.fst))
  | .other => ("string", none)

/-- One parameter of an inspected Python signature: its name, its type
annotation if any (absent means `get_type_hints` has no entry, in which
case the source falls back to `str`), and whether the signature supplies a
default value (`param.default == inspect.Parameter.empty` is `hasDefault =
false`). -/
structure PyParam where
  name : String
  annot : Option PyType
  hasDefault : Bool
deriving DecidableEq

/-- Lookup in an association list modelling a Python dict. -/
def alistLookup {τ : Type} (assoc : List (String × τ)) (key : String) : Option τ :=
  (assoc.find? (fun p => p.1 == key)).map Prod.snd

/-- The parameter-descriptor construction loop of the `tool` decorator in
ai_core/tools.py: for each signature parameter in order, fail if no
description was supplied for it, otherwise build its ToolParameter with
type/enum from `_get_parameter_type`, the supplied description, and
`required` true exactly when the parameter has no default. -/
def buildToolParams (parameter_descriptions : List (String × String)) :
    List PyParam → Except String (List (String × ToolParameter))
  | [] => .ok []
  | p :: rest =>
    match alistLookup parameter_descriptions p.name with
    | none => .error ("Missing description for parameter " ++ pyQuote p.name)
    | some d =>
      let te := _get_parameter_type (p.annot.getD .str)
      match buildToolParams parameter_descriptions rest with
      | .error e => .error e
      | .ok ps => .ok ((p.name, ⟨te.1, d, !p.hasDefault, te.2⟩) :: ps)

/-- The `tool` decorator of ai_core/tools.py applied to a callable with
name `funcName` and signature `sigParams`: builds the Tool descriptor that
the decorator attaches to the callable, or raises ValueError. -/
def tool (description : String) (safe : Bool)
    (parameter_descriptions : List (String × String))
    (funcName : String) (sigParams : List PyParam) : Except String Tool :=
  match buildToolParams parameter_descriptions sigParams with
  | .error e => .error e
  | .ok ps => .ok ⟨funcName, description, ps, safe⟩

/-! ## ai_core/types.py -/

/-- The tag of a MessageContent block (`Literal["text", "tool_use",
"tool_result", "image"]` in ai_core/types.py). -/
inductive ContentType where
  | text
  | tool_use
  | tool_result
  | image
deriving DecidableEq

/-- The raw field tuple of the MessageContent dataclass of
ai_core/types.py, before `__post_init__` validation.  The `image` payload
is the dict with keys "type", "media_type", "data". -/
structure MessageContent where
  type : ContentType
  text : Option String
  tool_call : Option ToolCall
  tool_result : Option ToolResult
  image : Option (List (String × String))
deriving DecidableEq

/-- The key-presence check of `__post_init__`:
`all(k in self.image for k in ["type", "media_type", "data"])`. -/
def imageHasKeys (img : List (String × String)) : Bool :=
  ["type", "media_type", "data"].all (fun k => img.any (fun p => p.1 == k))

/-- `MessageContent.__post_init__` of ai_core/types.py: the sequence of
`if ... raise ValueError` checks run at construction.  A raise aborts the
construction, so the successive `if` statements are an else-if chain. -/
def postInit (c : MessageContent) : Except String MessageContent :=
  if c.type = .text ∧ c.text = none then
    .error "text content must have text field"
  else if c.type = .tool_use ∧ c.tool_call = none then
    .error "tool_use content must have tool_call field"
  else if c.type = .tool_result ∧ c.tool_result = none then
    .error "tool_result content must have tool_result field"
  else if c.type = .image ∧ c.image = none then
    .error "image content must have image field"
  else if c.type = .image ∧ ¬ (imageHasKeys (c.image.getD []) = true) then
    .error "image field must contain type, media_type, and data"
  else
    .ok c

/-- Constructing a MessageContent runs `__post_init__`. -/
def mkMessageContent (type : ContentType) (text : Option String)
    (tool_call : Option ToolCall) (tool_result : Option ToolResult)
    (image : Option (List (String × String))) : Except String MessageContent :=
  postInit ⟨type, text, tool_call, tool_result, image⟩

/-- Spec-side predicate for the amended C3 claim: the payload field
matching the tag is present (and, for an image, the payload dict carries
the keys "type", "media_type" and "data"). -/
def matchingPayloadPresent (c : MessageContent) : Bool :=
  match c.type with
  | .text => c.text.isSome
  | .tool_use => c.tool_call.isSome
  | .tool_result => c.tool_result.isSome
  | .image =>
    match c.image with
    | some img => imageHasKeys img
    | none => false

/-- A block that passes construction while carrying a payload of a
different variant in addition to the one matching its tag. -/
def mixedPayloadBlock : MessageContent :=
  ⟨.text, some "hi", none, none,
   some [("type", "base64"), ("media_type", "image/png"), ("data", "zzz")]⟩

/-! ## ai_core/models.py -/

/-- `_SUPPORTED_PROVIDERS` of ai_core/models.py. -/
def _SUPPORTED_PROVIDERS : List String :=
  ["anthropic", "google", "openai", "deepseek", "perplexity", "mock"]

/-- `_MODEL_ALIASES` of ai_core/models.py: user-friendly alias to canonical
"provider:model_name" string. -/
def _MODEL_ALIASES : List (String × String) :=
  [("haiku", "anthropic:claude-3-haiku-20240307"),
   ("sonnet", "anthropic:claude-3-sonnet-20240229"),
   ("opus3", "anthropic:claude-3-opus-20240229"),
   ("sonnet3.5", "anthropic:claude-3-5-sonnet-latest"),
   ("sonnet3.7", "anthropic:claude-3-7-sonnet-latest"),
   ("haiku3.5", "anthropic:claude-3-5-haiku-latest"),
   ("opus4", "anthropic:claude-opus-4-20250514"),
   ("sonnet4", "anthropic:claude-sonnet-4-20250514"),
   ("opus4.1", "anthropic:claude-opus-4-1-20250805"),
   ("sonnet4.5", "anthropic:claude-sonnet-4-5-20250929"),
   ("gemini1.0", "google:gemini-1.0-pro-latest"),
   ("gemini1.5", "google:gemini-1.5-pro-latest"),
   ("gemini2.0flash", "google:gemini-flash"),
   ("gemini2.0flashlite", "google:gemini-flash-lite"),
   ("gemini2.0flashthinking", "google:gemini-flash-thinking-exp"),
   ("gemini2.0exp", "google:gemini-exp-1206"),
   ("gemini2.5exp", "google:gemini-2.5-pro-exp-03-25"),
   ("gemini2.5pro", "google:gemini-2.5-pro-preview-03-25"),
   ("gemini2.5flash", "google:gemini-2.5-flash"),
   ("gemini2.5flashlite", "google:gemini-2.5-flash-lite"),
   ("gemini3.0pro", "google:gemini-3-pro-preview"),
   ("gpt5.1", "openai:gpt-5.1"),
   ("pgt5.1instant", "openai:gpt-5.1-chat-latest"),
   ("gpt5", "openai:gpt-5"),
   ("gpt5-mini", "openai:gpt-5-mini"),
   ("gpt5-nano", "openai:gpt-5-nano"),
   ("gpt3.5", "openai:gpt-3.5-turbo"),
   ("gpt4", "openai:gpt-4-turbo-preview"),
   ("gpt4o", "openai:gpt-4o"),
   ("mini", "openai:gpt-4o-mini"),
   ("o1-preview", "openai:o1-preview"),
   ("o1-mini", "openai:o1-mini"),
   ("o1", "openai:o1-2024-12-17"),
   ("o3", "openai:o3"),
   ("o4-mini", "openai:o4-mini"),
   ("gpt4.1", "openai:gpt-4.1"),
   ("deepseek-chat", "deepseek:deepseek-chat"),
   ("deepseek-reasoner", "deepseek:deepseek-reasoner"),
   ("sonar", "perplexity:sonar"),
   ("sonar-pro", "perplexity:sonar-pro"),
   ("mock", "mock:mock-model")]

/-- `_MODEL_ALIASES.get(model_identifier)`. -/
def lookupAlias (model_identifier : String) : Option String :=
  alistLookup _MODEL_ALIASES model_identifier

/-- Split a character list at the first occurrence of `sep`, like Python
`split(sep, 1)` when the separator occurs (`none` when it does not). -/
def splitFirstAux (sep : Char) : List Char → Option (List Char × List Char)
  | [] => none
  | c :: rest =>
    if c = sep then some ([], rest)
    else
      match splitFirstAux sep rest with
      | none => none
      | some (l, r) => some (c :: l, r)

/-- Split a string at the first occurrence of `sep`: `some (before, after)`
when `sep` occurs in the string (Python `s.split(sep, 1)` with two results,
and `sep in s` true), `none` when it does not occur. -/
def splitFirst (sep : Char) (s : String) : Option (String × String) :=
  match splitFirstAux sep s.toList with
  | none => none
  | some (l, r) => some (⟨l⟩, ⟨r⟩)

/-- The final parsing block of `resolve_model_info` in ai_core/models.py:
split the resolved canonical identifier on the first colon and re-check
provider support; its failures are the "Internal Error" paths. -/
def parseCanonical (canonical original : String) : Except String (String × String) :=
  match splitFirst ':' canonical with
  | none =>
    .error ("Internal Error: Failed to parse canonical identifier " ++
      pyQuote canonical ++ " derived from " ++ pyQuote original)
  | some (provider, model_name) =>
    if provider = "" ∨ model_name = "" ∨ ¬ _SUPPORTED_PROVIDERS.contains provider = true then
      .error ("Internal Error: Failed to parse canonical identifier " ++
        pyQuote canonical ++ " derived from " ++ pyQuote original ++
        ": Internal Error: Invalid canonical format or unsupported provider generated")
    else
      .ok (provider, model_name)

/-- `resolve_model_info` of ai_core/models.py: an alias is looked up in
`_MODEL_ALIASES`; otherwise an identifier containing a colon is treated as
"provider:model_name" with both parts required non-empty and the provider
required supported; otherwise the identifier is an unknown alias.  The
resolved canonical identifier then goes through the final parsing block. -/
def resolve_model_info (model_identifier : String) : Except String (String × String) :=
  match lookupAlias model_identifier with
  | some canonical => parseCanonical canonical model_identifier
  | none =>
    match splitFirst ':' model_identifier with
    | none =>
      .error ("Unknown or unsupported model identifier alias: " ++ model_identifier)
    | some (provider_check, model_name_check) =>
      if provider_check = "" ∨ model_name_check = "" then
        .error "Malformed identifier"
      else if _SUPPORTED_PROVIDERS.contains provider_check = true then
        parseCanonical model_identifier model_identifier
      else
        .error ("Unsupported provider " ++ pyQuote provider_check ++
          " in identifier: " ++ model_identifier)

/-- Spec-side predicate: the identifier is a key of the static alias
table. -/
def isAliasKey (model_identifier : String) : Bool :=
  (lookupAlias model_identifier).isSome

/-- Spec-side predicate: the identifier is a `provider:model_name` pair
with a non-empty model name whose provider part is a supported provider. -/
def validProviderPair (model_identifier : String) : Bool :=
  match splitFirst ':' model_identifier with
  | some (provider, model_name) =>
    !(model_name == "") && _SUPPORTED_PROVIDERS.contains provider
  | none => false

/-- A canonical identifier that the final parsing block accepts: it splits
on a colon into a non-empty supported provider and a non-empty model
name. -/
def canonicalOk (canonical : String) : Bool :=
  match splitFirst ':' canonical with
  | some (provider, model_name) =>
    !(provider == "") && !(model_name == "") && _SUPPORTED_PROVIDERS.contains provider
  | none => false

/-! ## ai_core/wrappers/base.py and ai_core/wrappers/google.py -/

/-- AIResponse dataclass of ai_core/wrappers/base.py.  `content` is
declared `str`, but the Google wrapper can pass `response.text = None`
through, so it is modelled as optional. -/
structure AIResponse where
  content : Option String
  tool_calls : Option (List ToolCall)
  reasoning : Option String
  error : Option String
deriving DecidableEq

/-- The prompt_feedback attribute of a Gemini reply (google.py reads its
`block_reason` and `safety_ratings`); safety ratings are kept as their
rendered strings. -/
structure PromptFeedback where
  block_reason : Option String
  safety_ratings : List String
deriving DecidableEq

/-- One candidate of a Gemini reply: its `finish_reason` (None when the
attribute is absent), its safety ratings, and the text of
`candidate.content.parts[0]` when the whole fallback attribute chain of
google.py lines 130-135 yields a non-empty text (None otherwise). -/
structure Candidate where
  finish_reason : Option String
  safety_ratings : List String
  first_part_text : Option String
deriving DecidableEq

/-- The shape of a Gemini backend reply as read by
`GeminiWrapper._messages`: the candidate list (empty also covers a missing
`candidates` attribute), the optional prompt feedback, and the `.text`
property — `text_ok` is whether reading it raises, `text_val` its value
when it does not. -/
structure GeminiRawResponse where
  candidates : List Candidate
  prompt_feedback : Option PromptFeedback
  text_ok : Bool
  text_val : Option String
deriving DecidableEq

/-- Python rendering of a list of safety ratings inside an f-string. -/
def renderRatings (ratings : List String) : String :=
  "[" ++ String.intercalate ", " ratings ++ "]"

/-- The text-extraction tail of `GeminiWrapper._messages` (google.py lines
119-137): return `response.text` with the accumulated non-fatal error
annotation; on failure of the `.text` property, fall back to the first
part of the first candidate, extending the annotation; raise if no text
can be extracted at all. -/
def extractText (r : GeminiRawResponse) (response_error : Option String) :
    Except String AIResponse :=
  if r.text_ok then
    .ok ⟨r.text_val, none, none, response_error⟩
  else
    let err2 := (match response_error with
      | some e => e ++ " + "
      | none => "") ++ "Response does not have a .text property"
    match (r.candidates.headD ⟨none, [], none⟩).first_part_text with
    | some t => .ok ⟨some t, none, none, some err2⟩
    | none => .error "Could not extract text from response"

/-- The response-normalization part of `GeminiWrapper._messages`
(google.py lines 83-137): no candidates raises with the prompt block
reason when available; a first candidate finishing with SAFETY or
RECITATION raises; MAX_TOKENS or OTHER is recorded as the non-fatal
`error` annotation and processing continues to text extraction.  The
`if finish_reason:` truthiness test makes an empty-string finish reason
fall through with no annotation. -/
def gemini_messages (r : GeminiRawResponse) : Except String AIResponse :=
  if r.candidates.isEmpty then
    match r.prompt_feedback with
    | some pf =>
      match pf.block_reason with
      | some br =>
        .error ("Prompt was blocked due to " ++ br ++ ". Safety ratings: " ++
          renderRatings pf.safety_ratings)
      | none =>
        .error ("No candidates returned. Safety ratings: " ++
          renderRatings pf.safety_ratings)
    | none => .error "No candidates returned and no prompt feedback available."
  else
    let candidate := r.candidates.headD ⟨none, [], none⟩
    match candidate.finish_reason with
    | some fr =>
      if fr = "" then
        extractText r none
      else if fr = "SAFETY" then
        .error ("Response was blocked due to safety concerns. Safety ratings: " ++
          renderRatings candidate.safety_ratings)
      else if fr = "RECITATION" then
        .error "Response was blocked due to recitation concerns. The output may resemble training data."
      else if fr = "MAX_TOKENS" ∨ fr = "OTHER" then
        extractText r (some fr)
      else
        extractText r none
    | none => extractText r none

/-! ## ai_core/types.py (Message), ai_core/tokens.py and ai_core/client.py -/

/-- The role of a Message (`Literal["user", "assistant", "system"]` in
ai_core/types.py). -/
inductive Role where
  | user
  | assistant
  | system
deriving DecidableEq

/-- Message dataclass of ai_core/types.py. -/
structure Message where
  role : Role
  content : List MessageContent
deriving DecidableEq

/-- `n_tokens` of ai_core/tokens.py: `len(text) // 4`. -/
def n_tokens (text : String) : Nat := text.length / 4

/-- `image["data"]` as read by `n_tokens_images`. -/
def imgData (img : List (String × String)) : String :=
  (alistLookup img "data").getD ""

/-- `n_tokens_images` of ai_core/tokens.py; `dims` models the external
base64 image-dimension decoder `get_image_dimensions_from_base64`. -/
def n_tokens_images (dims : String → Nat × Nat)
    (images : List (List (String × String))) : Nat :=
  images.foldl (fun total img =>
    total + (dims (imgData img)).1 * (dims (imgData img)).2 / 750) 0

/-- `count_tokens_input` of ai_core/tokens.py: concatenate the system
prompt and every text block, collect every image payload, and combine the
two token estimates. -/
def count_tokens_input (dims : String → Nat × Nat) (messages : List Message)
    (system_prompt : String) : Nat :=
  let text := messages.foldl (fun acc m =>
    m.content.foldl (fun a c => if c.type = .text then a ++ c.text.getD "" else a) acc)
    system_prompt
  let images := messages.foldl (fun acc m =>
    m.content.foldl (fun a c => if c.type = .image then a ++ [c.image.getD []] else a) acc)
    []
  n_tokens text + n_tokens_images dims images

/-- `count_tokens_output` of ai_core/tokens.py. -/
def count_tokens_output (response_content : Option String) : Nat :=
  match response_content with
  | none => 0
  | some s => n_tokens s

/-- One line appended by `log_token_use` of ai_core/tokens.py: the model
name, the direction flag (`input`), and the token count.  The wall-clock
timestamp and invoking-script columns are outside the embedding. -/
structure LogEntry where
  model : String
  input : Bool
  tokens : Nat
deriving DecidableEq

/-- `DEFAULT_MAX_TOKENS` of ai_core/client.py. -/
def DEFAULT_MAX_TOKENS : Nat := 4096

/-- The AI client of ai_core/client.py.  `κ` is the type of the provider
adapter handle stored in `self.client` by `__init__` (opaque to the
façade).  `model_name` holds the result of `get_model` applied to the
constructor argument, `history` is `self._history` and `last_reasoning`
`self._last_reasoning`. -/
structure AI (κ : Type) where
  model_name : String
  system_prompt : String
  tools : List Tool
  client : κ
  history : List Message
  last_reasoning : Option String

/-- The provider-adapter invocation `client.messages(model_name, messages,
system_prompt, max_tokens, temperature, tools=..., thinking=...,
thinking_budget_tokens=...)` that `AI.messages` assembles. -/
structure ProviderCall (κ : Type) where
  client : κ
  model_name : String
  messages : List Message
  system_prompt : String
  max_tokens : Nat
  temperature : Float
  tools : List Tool
  thinking : Bool
  thinking_budget_tokens : Option Nat

/-- The text block `MessageContent(type="text", text=t)`. -/
def textBlock (t : String) : MessageContent := ⟨.text, some t, none, none, none⟩

/-- The image block `_prepare_messages` builds from an encoded image and
its media type. -/
def imageBlock (data media_type : String) : MessageContent :=
  ⟨.image, none, none, none,
   some [("type", "base64"), ("media_type", media_type), ("data", data)]⟩

/-- A single-text-block user message, as `_prepare_messages` builds it. -/
def userMsg (t : String) : Message := ⟨.user, [textBlock t]⟩

/-- A single-text-block assistant message, as `conversation` appends it. -/
def assistantMsg (t : String) : Message := ⟨.assistant, [textBlock t]⟩

/-- `AI._prepare_messages` of ai_core/client.py for a plain-string message:
each image path is validated and encoded (`loadImage` models
`validate_image` followed by `encode_image`; `.error` is the
FileNotFoundError or ValueError they raise); a failing path is skipped
(the `except` branch only prints); the text block is appended last.  Block
construction runs `__post_init__`; for an image block that happens inside
the same `try`, so its failure would also be skipped. -/
def _prepare_messages (loadImage : String → Except String (String × String))
    (message : String) (image_paths : List String) : Except String (List Message) :=
  let content := image_paths.foldr (fun image_path acc =>
    match loadImage image_path with
    | .ok em =>
      match postInit (imageBlock em.1 em.2) with
      | .ok c => c :: acc
      | .error _ => acc
    | .error _ => acc) []
  match postInit (textBlock message) with
  | .error e => .error e
  | .ok tb => .ok [⟨.user, content ++ [tb]⟩]

/-- `AI.messages` of ai_core/client.py up to the adapter invocation: the
model-name override logic (`get_model(model_override) or self.model_name`,
with Python truthiness on both the override and the lookup result), the
system-prompt fallback (`system_prompt or self.system_prompt`), and the
tool-list union (`self.tools + (tools or [])`).  `get_model` is imported
by client.py but absent from ai_core/models.py, so it is a parameter here
(the unit tests show it maps an alias to its canonical model name and
passes unknown identifiers through).  Debug printing is I/O only and
omitted.  The method assigns no instance field, so the returned post-state
is the input state. -/
def AI_messages {κ : Type} (get_model : String → String) (st : AI κ)
    (messages : List Message) (system_prompt : Option String)
    (model_override : Option String) (max_tokens : Nat) (temperature : Float)
    (tools : Option (List Tool)) (thinking : Bool)
    (thinking_budget_tokens : Option Nat) : ProviderCall κ × AI κ :=
  let model_name :=
    match model_override with
    | some ov =>
      if ov ≠ "" then
        (if get_model ov ≠ "" then get_model ov else st.model_name)
      else st.model_name
    | none => st.model_name
  let sys :=
    match system_prompt with
    | some sp => if sp ≠ "" then sp else st.system_prompt
    | none => st.system_prompt
  let tools_to_use := st.tools ++ tools.getD []
  (⟨st.client, model_name, messages, sys, max_tokens, temperature, tools_to_use,
    thinking, thinking_budget_tokens⟩, st)

/-- `AIWrapper.messages` of ai_core/wrappers/base.py around an abstract
provider backend `execute` (the `_messages` implementation): perform the
call, then invoke the token-usage sink exactly twice — once with the input
estimate, once with the output estimate. -/
def AIWrapper_messages {κ : Type} (execute : ProviderCall κ → AIResponse)
    (dims : String → Nat × Nat) (call : ProviderCall κ) :
    AIResponse × List LogEntry :=
  let response := execute call
  (response,
   [⟨call.model_name, true, count_tokens_input dims call.messages call.system_prompt⟩,
    ⟨call.model_name, false, count_tokens_output response.content⟩])

/-- Python truthiness on an optional string, as in
`if response.reasoning:` — None and the empty string are falsy. -/
def pyTruthyOpt : Option String → Option String
  | some s => if s = "" then none else some s
  | none => none

/-- `AI.conversation` of ai_core/client.py: prepend the stored history to
the prepared message(s), send through `AI.messages` and the wrapper (which
logs twice), append the assistant text as a new transcript entry
(constructing a text MessageContent from `response.content`), and keep the
reasoning trace only in `self._last_reasoning` (with Python truthiness),
never in the transcript. -/
def AI_conversation {κ : Type} (get_model : String → String)
    (execute : ProviderCall κ → AIResponse) (dims : String → Nat × Nat)
    (loadImage : String → Except String (String × String)) (st : AI κ)
    (message : String) (image_paths : List String)
    (system_prompt : Option String) (model_override : Option String)
    (max_tokens : Nat) (temperature : Float) (thinking : Bool)
    (thinking_budget_tokens : Option Nat) :
    Except String (AIResponse × AI κ × List LogEntry) :=
  match _prepare_messages loadImage message image_paths with
  | .error e => .error e
  | .ok prepared =>
    let messages := st.history ++ prepared
    let call := (AI_messages get_model st messages system_prompt model_override
      max_tokens temperature none thinking thinking_budget_tokens).1
    let rl := AIWrapper_messages execute dims call
    match mkMessageContent .text rl.1.content none none none with
    | .error e => .error e
    | .ok ac =>
      .ok (rl.1,
        { st with
            history := messages ++ [⟨.assistant, [ac]⟩],
            last_reasoning := pyTruthyOpt rl.1.reasoning },
        rl.2)

/-- The adapter call `conversation` makes: the instance client, model
name, system prompt and tools (per-call tools are not passed, so the union
is the instance list alone), with the full transcript. -/
def convCall {κ : Type} (st : AI κ) (msgs : List Message) (max_tokens : Nat)
    (temperature : Float) (thinking : Bool) (tb : Option Nat) : ProviderCall κ :=
  ⟨st.client, st.model_name, msgs, st.system_prompt, max_tokens, temperature,
   st.tools ++ [], thinking, tb⟩

/-! ## ai_core/pricing.py -/

/-- `pricing_data` of ai_core/pricing.py, in USD per 1M tokens as
(input rate, output rate); the Python float literals are modelled as exact
rationals. -/
def pricing_data : List (String × (ℚ × ℚ)) :=
  [("opus4", (15, 75)),
   ("opus4.1", (15, 75)),
   ("sonnet4", (3, 15)),
   ("haiku3.5", (0.8, 4)),
   ("opus3", (15, 75)),
   ("sonnet3.7", (3, 15)),
   ("sonnet4.5", (3, 15)),
   ("opus4.5", (5, 25)),
   ("haiku3", (0.25, 1.25)),
   ("gemini2.5pro", (1.25, 10.00)),
   ("gemini2.5flash", (0.3, 2.5)),
   ("gemini3.0pro", (2.00, 12.00)),
   ("gemini3.0flash", (0.5, 3.0)),
   ("gpt5", (1.25, 10.00)),
   ("gpt5-mini", (0.25, 2)),
   ("gpt5-nano", (0.05, 0.4))]

/-- Boolean lexicographic comparison of character lists (by code point),
matching Python string ordering. -/
def charListLe : List Char → List Char → Bool
  | [], _ => true
  | _ :: _, [] => false
  | a :: as, b :: bs => if a < b then true else if b < a then false else charListLe as bs

/-- Boolean lexicographic comparison of strings. -/
def strLe (a b : String) : Bool := charListLe a.toList b.toList

/-- Insertion step of a string sort. -/
def insertSorted (a : String) : List String → List String
  | [] => [a]
  | b :: rest => if strLe a b then a :: b :: rest else b :: insertSorted a rest

/-- Python `sorted()` on strings (lexicographic by code point), as used for
the "Available models" listing. -/
def sortStrings : List String → List String
  | [] => []
  | a :: rest => insertSorted a (sortStrings rest)

/-- `", ".join(sorted(pricing_data.keys()))` of compute_request_price. -/
def availableModels : String :=
  String.intercalate ", " (sortStrings (pricing_data.map Prod.fst))

/-- `compute_request_price` of ai_core/pricing.py: membership test in the
rate table first, then per-token rates from the per-million entries and
the linear combination. -/
def compute_request_price (tokens_in tokens_out : Nat) (model_alias : String) :
    Except String ℚ :=
  match alistLookup pricing_data model_alias with
  | none =>
    .error ("Unknown model alias " ++ pyQuote model_alias ++ ". " ++
      "Available models: " ++ availableModels)
  | some model_pricing =>
    let input_price_per_token := model_pricing.1 / 1000000
    let output_price_per_token := model_pricing.2 / 1000000
    .ok (tokens_in * input_price_per_token + tokens_out * output_price_per_token)

/-! ## ai_core/wrappers/mock.py -/

/-- Python repr of an optional string: None, or the quoted string. -/
def renderOptStr : Option String → String
  | none => "None"
  | some s => pyQuote s

/-- Python str() of a list of strings, as the mock's f-string renders
`param.enum`. -/
def renderStrList (xs : List String) : String :=
  "[" ++ String.intercalate ", " (xs.map pyQuote) ++ "]"

/-- The mock's f-string `{thinking_budget_tokens or 'auto'}`: None and 0
are falsy and render as auto. -/
def renderBudget : Option Nat → String
  | some n => if n ≠ 0 then toString n else "auto"
  | none => "auto"

/-- Python bool rendering. -/
def renderBool (b : Bool) : String := if b then "True" else "False"

/-- Python repr of a ToolCall dataclass, as `f"{content.tool_call}"`
renders it. -/
def renderToolCall (tc : ToolCall) : String :=
  "ToolCall(name=" ++ pyQuote tc.name ++ ", arguments=\x7b" ++
    String.intercalate ", "
      (tc.arguments.map (fun p => pyQuote p.1 ++ ": " ++ pyQuote p.2)) ++
    "\x7d, id=" ++ renderOptStr tc.id ++ ")"

/-- Python repr of a ToolResult dataclass. -/
def renderToolResult (tr : ToolResult) : String :=
  "ToolResult(name=" ++ pyQuote tr.name ++ ", result=" ++
    renderOptStr tr.result ++ ", tool_call_id=" ++
    renderOptStr tr.tool_call_id ++ ", error=" ++ renderOptStr tr.error ++ ")"

/-- Rendering of a message role string. -/
def renderRole : Role → String
  | .user => "user"
  | .assistant => "assistant"
  | .system => "system"

/-- One parameter line group of the mock's tool section. -/
def renderParam (p : String × ToolParameter) : String :=
  "  - " ++ p.1 ++ ":\n" ++
  "    type: " ++ p.2.type ++ "\n" ++
  "    description: " ++ p.2.description ++ "\n" ++
  "    required: " ++ renderBool p.2.required ++ "\n" ++
  (match p.2.enum with
   | some es => if es ≠ [] then "    enum: " ++ renderStrList es ++ "\n" else ""
   | none => "")

/-- One tool entry of the mock's tool section (`if param.enum:` truthiness
skips both None and an empty list). -/
def renderTool (t : Tool) : String :=
  "Tool: " ++ t.name ++ "\n" ++
  "Description: " ++ t.description ++ "\n" ++
  "Parameters:\n" ++ String.join (t.parameters.map renderParam) ++ "\n"

/-- One content block of the mock's message section (image blocks are
skipped by the if/elif chain). -/
def renderContent (c : MessageContent) : String :=
  match c.type with
  | .text => c.text.getD "" ++ "\n"
  | .tool_use =>
    "[tool_use: " ++
      (match c.tool_call with
       | some tc => renderToolCall tc
       | none => "None") ++ "]\n"
  | .tool_result =>
    "[tool_result: " ++
      (match c.tool_result with
       | some tr => renderToolResult tr
       | none => "None") ++ "]\n"
  | .image => ""

/-- One message of the mock's message section. -/
def renderMessage (m : Message) : String :=
  "role: " ++ renderRole m.role ++ "\n" ++
  "content: \n" ++ String.join (m.content.map renderContent)

/-- The argument tuple of `MockWrapper._messages`.  The tool items the
Python wrapper receives are decorated callables whose `.tool` attribute it
immediately dereferences; here the descriptors are carried directly. -/
structure MockInput where
  model_name : String
  messages : List Message
  system_prompt : String
  max_tokens : Nat
  temperature : Float
  tools : Option (List Tool)
  thinking : Bool
  thinking_budget_tokens : Option Nat

/-- `MockWrapper._messages` of ai_core/wrappers/mock.py: a pure echo of
the request — parameter block, system prompt block, optional tools block
(`if tools:` truthiness), message block, and fixed mock reasoning when
thinking is enabled.  Python float formatting of the temperature is
modelled by Lean Float rendering. -/
def mock_messages (i : MockInput) : AIResponse :=
  let params := "---PARAMETERS START---\n" ++
    "max_tokens: " ++ toString i.max_tokens ++ "\n" ++
    "temperature: " ++ toString i.temperature ++ "\n" ++
    (if i.thinking then
      "thinking: enabled\n" ++
      "thinking_budget_tokens: " ++ renderBudget i.thinking_budget_tokens ++ "\n"
     else "") ++
    "---PARAMETERS END---\n"
  let sys := "---SYSTEM PROMPT START---\n" ++ i.system_prompt ++ "\n" ++
    "---SYSTEM PROMPT END---\n"
  let toolsSec :=
    match i.tools with
    | some ts =>
      if ts ≠ [] then
        "---TOOLS START---\n" ++ String.join (ts.map renderTool) ++
          "---TOOLS END---\n"
      else ""
    | none => ""
  let msgsSec := "---MESSAGES START---\n" ++
    String.join (i.messages.map renderMessage) ++ "---MESSAGES END---\n"
  let mock_reasoning :=
    if i.thinking then
      some ("Mock reasoning: This is a simulated chain of thought from the mock wrapper.\n" ++
        "I would have used up to " ++ renderBudget i.thinking_budget_tokens ++
        " tokens for this reasoning.\n" ++
        "Step 1: First, I analyze the problem...\n" ++
        "Step 2: Then, I consider possible approaches...\n" ++
        "Step 3: Finally, I select the best solution...\n")
    else none
  ⟨some (params ++ sys ++ toolsSec ++ msgsSec), none, mock_reasoning, none⟩

/-! ## Theorems about ai_core/tools.py and ai_core/types.py -/

/-- C1 counterexample: the claim says every declared type other than a
string-literal set or an enumeration maps to tool parameter type `string`,
but the source maps a declared `int` to `"integer"`. -/
theorem c1_counterexample :
    _get_parameter_type PyType.int = ("integer", none) ∧
    ("integer", (none : Option (List String))) ≠ ("string", none) := by
  constructor
  · rfl
  · decide

/-- C1 (amended): a string-literal set maps to type `string` with enum the
literal values; an enumeration type maps to type `string` with enum the
member names; declared `str`, `int`, `float`, `bool` map to `string`,
`integer`, `number`, `boolean` respectively with no enum; any other
declared type maps to `string` with no enum.  In particular a
string-literal parameter with values celsius/fahrenheit gets exactly that
enum. -/
theorem c1_parameter_type :
    (∀ args, _get_parameter_type (PyType.literal args) = ("string", some args)) ∧
    (∀ members, _get_parameter_type (PyType.enumType members) =
      ("string", some (members.map Prod.fst))) ∧
    _get_parameter_type PyType.str = ("string", none) ∧
    _get_parameter_type PyType.int = ("integer", none) ∧
    _get_parameter_type PyType.float = ("number", none) ∧
    _get_parameter_type PyType.bool = ("boolean", none) ∧
    _get_parameter_type PyType.other = ("string", none) ∧
    _get_parameter_type (PyType.literal ["celsius", "fahrenheit"]) =
      ("string", some ["celsius", "fahrenheit"]) := by
  refine ⟨fun args => rfl, fun members => rfl, rfl, rfl, rfl, rfl, rfl, rfl⟩

/-- Helper for C2: when some signature parameter lacks a description, the
parameter loop raises naming the first such parameter. -/
theorem buildToolParams_missing (descs : List (String × String))
    (sigParams : List PyParam) (p : PyParam)
    (h : sigParams.find? (fun q => (alistLookup descs q.name).isNone) = some p) :
    buildToolParams descs sigParams =
      .error ("Missing description for parameter " ++ pyQuote p.name) := by
  induction sigParams with
  | nil => simp [List.find?] at h
  | cons r rest ih =>
    rw [List.find?_cons] at h
    cases hl : alistLookup descs r.name with
    | none =>
      rw [hl] at h
      simp only [Option.isNone_none, cond_true] at h
      injection h with h
      subst h
      unfold buildToolParams
      rw [hl]
    | some d =>
      rw [hl] at h
      simp only [Option.isNone_some, cond_false] at h
      unfold buildToolParams
      rw [hl, ih h]

/-- Helper for C2: when every signature parameter has a description, the
parameter loop succeeds and records, in signature order, `required` true
exactly for the parameters without a default value. -/
theorem buildToolParams_complete (descs : List (String × String))
    (sigParams : List PyParam)
    (h : ∀ p ∈ sigParams, (alistLookup descs p.name).isSome) :
    ∃ ps, buildToolParams descs sigParams = .ok ps ∧
      ps.map (fun q => (q.1, q.2.required)) =
        sigParams.map (fun p => (p.name, !p.hasDefault)) := by
  induction sigParams with
  | nil => exact ⟨[], rfl, rfl⟩
  | cons r rest ih =>
    have hr : (alistLookup descs r.name).isSome := h r (by simp)
    cases hl : alistLookup descs r.name with
    | none => rw [hl] at hr; simp at hr
    | some d =>
      obtain ⟨ps, hps, hmap⟩ := ih (fun p hp => h p (by simp [hp]))
      refine ⟨(r.name, ⟨(_get_parameter_type (r.annot.getD .str)).1, d,
        !r.hasDefault, (_get_parameter_type (r.annot.getD .str)).2⟩) :: ps, ?_, ?_⟩
      · unfold buildToolParams
        rw [hl, hps]
      · simp [hmap]

/-- C2: registering a callable through the `tool` decorator fails, naming
the offending parameter, when that parameter lacks a caller-supplied
description (the first such parameter in signature order); and when every
parameter is described the descriptor is built with `required` true for a
parameter exactly when it has no default value in the signature. -/
theorem c2_tool_registration (description : String) (safe : Bool)
    (descs : List (String × String)) (funcName : String)
    (sigParams : List PyParam) :
    (∀ p, sigParams.find? (fun q => (alistLookup descs q.name).isNone) = some p →
      tool description safe descs funcName sigParams =
        .error ("Missing description for parameter " ++ pyQuote p.name)) ∧
    ((∀ p ∈ sigParams, (alistLookup descs p.name).isSome) →
      ∃ t, tool description safe descs funcName sigParams = .ok t ∧
        t.name = funcName ∧ t.description = description ∧ t.safe = safe ∧
        t.parameters.map (fun q => (q.1, q.2.required)) =
          sigParams.map (fun p => (p.name, !p.hasDefault))) := by
  constructor
  · intro p h
    unfold tool
    rw [buildToolParams_missing descs sigParams p h]
  · intro h
    obtain ⟨ps, hps, hmap⟩ := buildToolParams_complete descs sigParams h
    exact ⟨⟨funcName, description, ps, safe⟩, by unfold tool; rw [hps], rfl, rfl, rfl, hmap⟩

/-- C2 witness: a concrete two-parameter callable, one parameter with a
default, registered with descriptions for both parameters. -/
theorem c2_tool_registration_witness :
    ∃ t, tool "Fetch weather data" true
        [("city", "The city"), ("units", "The units")] "get_weather"
        [⟨"city", some PyType.str, false⟩,
         ⟨"units", some (PyType.literal ["celsius", "fahrenheit"]), true⟩] = .ok t ∧
      t.name = "get_weather" ∧ t.description = "Fetch weather data" ∧
      t.safe = true ∧
      t.parameters.map (fun q => (q.1, q.2.required)) =
        ([⟨"city", some PyType.str, false⟩,
          ⟨"units", some (PyType.literal ["celsius", "fahrenheit"]), true⟩] :
            List PyParam).map (fun p => (p.name, !p.hasDefault)) :=
  (c2_tool_registration "Fetch weather data" true
    [("city", "The city"), ("units", "The units")] "get_weather"
    [⟨"city", some PyType.str, false⟩,
     ⟨"units", some (PyType.literal ["celsius", "fahrenheit"]), true⟩]).2
    (by decide)

/-- C3 counterexample: a block tagged `text` whose `image` payload is also
populated passes `__post_init__`, so construction does not require the
non-matching payloads to be absent. -/
theorem c3_counterexample :
    postInit mixedPayloadBlock = .ok mixedPayloadBlock ∧
    mixedPayloadBlock.type = ContentType.text ∧
    mixedPayloadBlock.image ≠ none := by
  refine ⟨rfl, rfl, ?_⟩
  intro h
  simp [mixedPayloadBlock] at h

/-- C3 (amended): construction of a content block succeeds exactly when
the payload field matching the tag is present (for an image, additionally
carrying the keys type, media_type and data); the payloads of the other
variants are not checked and may also be present. -/
theorem c3_post_init (c : MessageContent) :
    exceptOk (postInit c) = matchingPayloadPresent c := by
  unfold postInit matchingPayloadPresent
  rcases c with ⟨ty, tx, tc, tr, im⟩
  cases ty with
  | text => cases tx <;> simp [exceptOk]
  | tool_use => cases tc <;> simp [exceptOk]
  | tool_result => cases tr <;> simp [exceptOk]
  | image =>
    cases im with
    | none => simp [exceptOk]
    | some img => cases h : imageHasKeys img <;> simp [exceptOk, h]

/-- C3 witness: a well-formed text block passes construction. -/
theorem c3_post_init_witness :
    exceptOk (postInit ⟨ContentType.text, some "hello", none, none, none⟩) =
      matchingPayloadPresent ⟨ContentType.text, some "hello", none, none, none⟩ :=
  c3_post_init ⟨ContentType.text, some "hello", none, none, none⟩


/-! ## Theorems about ai_core/models.py -/

/-- Helper for C4: the empty string is not a supported provider. -/
theorem contains_empty_provider : _SUPPORTED_PROVIDERS.contains "" = false := by
  decide

/-- Helper for C4: membership form of `contains_empty_provider`. -/
theorem empty_not_supported : "" ∉ _SUPPORTED_PROVIDERS := by
  decide

/-- Helper for C4: the final parsing block succeeds exactly on canonical
identifiers accepted by `canonicalOk`. -/
theorem parseCanonical_exceptOk (canonical original : String) :
    exceptOk (parseCanonical canonical original) = canonicalOk canonical := by
  unfold parseCanonical canonicalOk
  cases h : splitFirst ':' canonical with
  | none => simp [exceptOk]
  | some pm =>
    obtain ⟨p, m⟩ := pm
    dsimp only
    split_ifs with hc
    · rcases hc with hc | hc | hc
      · simp [exceptOk, hc, contains_empty_provider]
      · simp [exceptOk, hc]
      · simp only [Bool.not_eq_true] at hc
        simp [exceptOk, hc]
        exact fun _ _ hmem => Bool.noConfusion ((List.elem_iff.mpr hmem).symm.trans hc)
    · push_neg at hc
      obtain ⟨hp, hm, hcont⟩ := hc
      simp [exceptOk, hp, hm, hcont]
      exact List.elem_iff.mp hcont

/-- Helper for C4: every canonical value in the alias table is accepted by
the final parsing block. -/
theorem aliases_canonicalOk :
    _MODEL_ALIASES.all (fun q => canonicalOk q.2) = true := by
  decide

/-- Helper for C4: a successful alias lookup returns a value stored in the
table. -/
theorem lookupAlias_mem (model_identifier canonical : String)
    (h : lookupAlias model_identifier = some canonical) :
    ∃ k, (k, canonical) ∈ _MODEL_ALIASES := by
  unfold lookupAlias alistLookup at h
  cases hf : _MODEL_ALIASES.find? (fun p => p.1 == model_identifier) with
  | none =>
    rw [hf] at h
    exact Option.noConfusion h
  | some q =>
    rw [hf] at h
    injection h with h
    refine ⟨q.1, ?_⟩
    have hm := List.mem_of_find?_eq_some hf
    rw [← h]
    exact hm

/-- C4: resolution succeeds exactly when the identifier is a key of the
static alias table or a `provider:model_name` pair with non-empty model
name and supported provider; a valid explicit pair resolves to its two
parts, and an alias resolves to the parts of its canonical table value. -/
theorem c4_resolve_model_info :
    (∀ model_identifier, exceptOk (resolve_model_info model_identifier) =
      (isAliasKey model_identifier || validProviderPair model_identifier)) ∧
    (∀ model_identifier p m, lookupAlias model_identifier = none →
      splitFirst ':' model_identifier = some (p, m) →
      _SUPPORTED_PROVIDERS.contains p = true → m ≠ "" →
      resolve_model_info model_identifier = .ok (p, m)) ∧
    (∀ model_identifier canonical p m,
      lookupAlias model_identifier = some canonical →
      splitFirst ':' canonical = some (p, m) →
      p ≠ "" → m ≠ "" → _SUPPORTED_PROVIDERS.contains p = true →
      resolve_model_info model_identifier = .ok (p, m)) := by
  refine ⟨?_, ?_, ?_⟩
  · intro id
    unfold resolve_model_info isAliasKey validProviderPair
    cases hl : lookupAlias id with
    | some canonical =>
      simp only [Option.isSome_some, Bool.true_or]
      rw [parseCanonical_exceptOk]
      obtain ⟨k, hk⟩ := lookupAlias_mem id canonical hl
      exact List.all_eq_true.mp aliases_canonicalOk (k, canonical) hk
    | none =>
      simp only [Option.isSome_none, Bool.false_or]
      cases hs : splitFirst ':' id with
      | none => simp [exceptOk]
      | some pm =>
        obtain ⟨p, m⟩ := pm
        dsimp only
        split_ifs with h1 h2
        · rcases h1 with h1 | h1
          · simp [exceptOk, h1, empty_not_supported]
          · simp [exceptOk, h1]
        · push_neg at h1
          rw [parseCanonical_exceptOk]
          unfold canonicalOk
          rw [hs]
          dsimp only
          rw [beq_eq_false_iff_ne.mpr h1.1, beq_eq_false_iff_ne.mpr h1.2]
          simp [h2]
        · simp only [Bool.not_eq_true] at h2
          simp [exceptOk, h2]
          exact fun _ hmem => Bool.noConfusion ((List.elem_iff.mpr hmem).symm.trans h2)
  · intro id p m hl hs hcont hm
    unfold resolve_model_info
    rw [hl, hs]
    dsimp only
    have hp : p ≠ "" := by
      intro he
      rw [he, contains_empty_provider] at hcont
      exact Bool.false_ne_true hcont
    rw [if_neg (by simp [hp, hm]), if_pos hcont]
    unfold parseCanonical
    rw [hs]
    dsimp only
    rw [if_neg (by simp [hp, hm, hcont]; exact List.elem_iff.mp hcont)]
  · intro id canonical p m hl hs hp hm hcont
    unfold resolve_model_info
    rw [hl]
    dsimp only
    unfold parseCanonical
    rw [hs]
    dsimp only
    rw [if_neg (by simp [hp, hm, hcont]; exact List.elem_iff.mp hcont)]

/-- C4 witness: the alias "haiku" resolves through the table, and the
explicit pair "mock:custom-model" resolves to its parts. -/
theorem c4_resolve_model_info_witness :
    resolve_model_info "haiku" = .ok ("anthropic", "claude-3-haiku-20240307") ∧
    resolve_model_info "mock:custom-model" = .ok ("mock", "custom-model") := by
  constructor
  · exact c4_resolve_model_info.2.2 "haiku" "anthropic:claude-3-haiku-20240307"
      "anthropic" "claude-3-haiku-20240307" (by decide) (by decide)
      (by decide) (by decide) (by decide)
  · exact c4_resolve_model_info.2.1 "mock:custom-model" "mock" "custom-model"
      (by decide) (by decide) (by decide) (by decide)

/-! ## Theorems about ai_core/wrappers/google.py -/

/-- C5: a reply with zero candidates and a provider-reported block reason
raises an error whose message contains that block reason; a first
candidate finishing with SAFETY or RECITATION raises; a candidate
finishing with MAX_TOKENS or OTHER does not raise — the reply text is
returned with the finish reason recorded as the non-fatal error
annotation. -/
theorem c5_gemini_finish_reasons :
    (∀ r pf br, r.candidates = [] → r.prompt_feedback = some pf →
      pf.block_reason = some br →
      ∃ pre post, gemini_messages r = .error (pre ++ br ++ post)) ∧
    (∀ r c rest, r.candidates = c :: rest →
      (c.finish_reason = some "SAFETY" ∨ c.finish_reason = some "RECITATION") →
      ∃ e, gemini_messages r = .error e) ∧
    (∀ r c rest fr, r.candidates = c :: rest → c.finish_reason = some fr →
      (fr = "MAX_TOKENS" ∨ fr = "OTHER") → r.text_ok = true →
      gemini_messages r = .ok ⟨r.text_val, none, none, some fr⟩) := by
  refine ⟨?_, ?_, ?_⟩
  · intro r pf br hc hpf hbr
    refine ⟨"Prompt was blocked due to ",
      ". Safety ratings: " ++ renderRatings pf.safety_ratings, ?_⟩
    simp [gemini_messages, hc, hpf, hbr, String.append_assoc]
  · intro r c rest hc hfr
    unfold gemini_messages
    rw [hc]
    simp only [List.isEmpty_cons, List.headD_cons, Bool.false_eq_true, if_false]
    rcases hfr with hfr | hfr
    · rw [hfr]
      dsimp only
      rw [if_neg (by decide), if_pos rfl]
      exact ⟨_, rfl⟩
    · rw [hfr]
      dsimp only
      rw [if_neg (by decide), if_neg (by decide), if_pos rfl]
      exact ⟨_, rfl⟩
  · intro r c rest fr hc hfr hfr2 htext
    unfold gemini_messages
    rw [hc]
    simp only [List.isEmpty_cons, List.headD_cons, Bool.false_eq_true, if_false]
    rw [hfr]
    dsimp only
    have hne : ¬ (fr = "" ∨ fr = "SAFETY" ∨ fr = "RECITATION") := by
      rcases hfr2 with h | h <;> subst h <;> decide
    push_neg at hne
    rw [if_neg hne.1, if_neg hne.2.1, if_neg hne.2.2, if_pos hfr2]
    unfold extractText
    rw [htext]
    simp only [if_true]

/-- C5 witness: a concrete reply whose only candidate finished with
MAX_TOKENS and whose text property yields partial content. -/
theorem c5_gemini_finish_reasons_witness :
    gemini_messages ⟨[⟨some "MAX_TOKENS", [], none⟩], none, true, some "partial"⟩ =
      .ok ⟨some "partial", none, none, some "MAX_TOKENS"⟩ :=
  c5_gemini_finish_reasons.2.2 ⟨[⟨some "MAX_TOKENS", [], none⟩], none, true, some "partial"⟩
    ⟨some "MAX_TOKENS", [], none⟩ [] "MAX_TOKENS" rfl rfl (Or.inl rfl) rfl

/-! ## Theorems about ai_core/client.py -/

/-- Helper for C7: the attachment loop equals a filterMap keeping the
successfully loaded images, in path order. -/
theorem prepare_content_eq (loadImage : String → Except String (String × String))
    (image_paths : List String) :
    image_paths.foldr (fun image_path acc =>
      match loadImage image_path with
      | .ok em =>
        match postInit (imageBlock em.1 em.2) with
        | .ok c => c :: acc
        | .error _ => acc
      | .error _ => acc) [] =
    image_paths.filterMap (fun p =>
      match loadImage p with
      | .ok em => some (imageBlock em.1 em.2)
      | .error _ => none) := by
  induction image_paths with
  | nil => rfl
  | cons p rest ih =>
    simp only [List.foldr_cons, List.filterMap_cons]
    cases hl : loadImage p with
    | ok em =>
      have hpi : postInit (imageBlock em.1 em.2) = .ok (imageBlock em.1 em.2) := rfl
      dsimp only
      rw [hpi]
      dsimp only
      rw [ih]
    | error e =>
      dsimp only
      rw [ih]

/-- C7: building a message from a text string and image paths never
raises: every attachment whose validation or encoding fails is omitted,
the remaining attachments are kept in order, and the text block comes
last in a single user message. -/
theorem c7_prepare_messages_skips_failures
    (loadImage : String → Except String (String × String))
    (message : String) (image_paths : List String) :
    _prepare_messages loadImage message image_paths =
      .ok [⟨Role.user, (image_paths.filterMap (fun p =>
        match loadImage p with
        | .ok em => some (imageBlock em.1 em.2)
        | .error _ => none)) ++ [textBlock message]⟩] := by
  unfold _prepare_messages
  rw [prepare_content_eq]
  rfl

/-- C10: a `model_override` argument to `AI.messages` never changes which
provider adapter is called — the call always goes to the client selected
at construction — and never mutates the instance; relative to the same
call without an override, only the forwarded model-name string differs,
and a truthy override with a truthy `get_model` result forwards that
resolved name. -/
theorem c10_model_override_frame {κ : Type} (get_model : String → String)
    (st : AI κ) (messages : List Message) (system_prompt : Option String)
    (model_override : Option String) (max_tokens : Nat) (temperature : Float)
    (tools : Option (List Tool)) (thinking : Bool) (tb : Option Nat) :
    ((AI_messages get_model st messages system_prompt model_override
        max_tokens temperature tools thinking tb).1.client = st.client) ∧
    ((AI_messages get_model st messages system_prompt model_override
        max_tokens temperature tools thinking tb).2 = st) ∧
    ((AI_messages get_model st messages system_prompt model_override
        max_tokens temperature tools thinking tb).1.messages =
      (AI_messages get_model st messages system_prompt none
        max_tokens temperature tools thinking tb).1.messages) ∧
    ((AI_messages get_model st messages system_prompt model_override
        max_tokens temperature tools thinking tb).1.system_prompt =
      (AI_messages get_model st messages system_prompt none
        max_tokens temperature tools thinking tb).1.system_prompt) ∧
    ((AI_messages get_model st messages system_prompt model_override
        max_tokens temperature tools thinking tb).1.tools =
      (AI_messages get_model st messages system_prompt none
        max_tokens temperature tools thinking tb).1.tools) ∧
    (∀ ov, model_override = some ov → ov ≠ "" → get_model ov ≠ "" →
      (AI_messages get_model st messages system_prompt model_override
        max_tokens temperature tools thinking tb).1.model_name = get_model ov) := by
  refine ⟨rfl, rfl, rfl, rfl, rfl, ?_⟩
  intro ov hov h1 h2
  subst hov
  unfold AI_messages
  dsimp only
  rw [if_pos h1, if_pos h2]

/-- C10 witness: an override naming another provider's model is still
dispatched to the constructor-selected client and forwards the resolved
name. -/
theorem c10_model_override_frame_witness :
    ((AI_messages (fun s => s) (⟨"claude-sonnet-4-20250514", "sys", [], 7, [], none⟩ : AI Nat)
        [] none (some "gemini-1.5-pro-latest") 4096 0.0 none false none).1.client = 7) ∧
    ((AI_messages (fun s => s) (⟨"claude-sonnet-4-20250514", "sys", [], 7, [], none⟩ : AI Nat)
        [] none (some "gemini-1.5-pro-latest") 4096 0.0 none false none).1.model_name =
      "gemini-1.5-pro-latest") := by
  constructor
  · exact (c10_model_override_frame (fun s => s)
      ⟨"claude-sonnet-4-20250514", "sys", [], 7, [], none⟩
      [] none (some "gemini-1.5-pro-latest") 4096 0.0 none false none).1
  · exact (c10_model_override_frame (fun s => s)
      ⟨"claude-sonnet-4-20250514", "sys", [], 7, [], none⟩
      [] none (some "gemini-1.5-pro-latest") 4096 0.0 none false none).2.2.2.2.2
      "gemini-1.5-pro-latest" rfl (by decide) (by decide)

/-- Helper for C6: preparing a plain text message with no image paths
yields a single-text-block user message. -/
theorem prepare_messages_text (loadImage : String → Except String (String × String))
    (t : String) : _prepare_messages loadImage t [] = .ok [userMsg t] := rfl

/-- C6: two turns of `conversation` on a fresh client leave a transcript
of exactly four messages in the order user, assistant, user, assistant,
the assistant entries holding the two responses' text content; the
reasoning trace is kept only as the latest-reasoning value, never in the
transcript; and each turn invokes the token-usage sink exactly twice, once
for input and once for output. -/
theorem c6_conversation_two_turns {κ : Type} (get_model : String → String)
    (execute : ProviderCall κ → AIResponse) (dims : String → Nat × Nat)
    (loadImage : String → Except String (String × String)) (st0 : AI κ)
    (t1 t2 c1 c2 : String) (tc1 tc2 : Option (List ToolCall))
    (r1 r2 e1 e2 : Option String) (mt : Nat) (temp : Float) (th : Bool)
    (tb : Option Nat)
    (hh : st0.history = [])
    (h1 : execute (convCall st0 [userMsg t1] mt temp th tb) = ⟨some c1, tc1, r1, e1⟩)
    (h2 : execute (convCall st0 [userMsg t1, assistantMsg c1, userMsg t2] mt temp th tb) =
      ⟨some c2, tc2, r2, e2⟩) :
    ∃ st1 st2 log1 log2,
      AI_conversation get_model execute dims loadImage st0 t1 [] none none
        mt temp th tb = .ok (⟨some c1, tc1, r1, e1⟩, st1, log1) ∧
      AI_conversation get_model execute dims loadImage st1 t2 [] none none
        mt temp th tb = .ok (⟨some c2, tc2, r2, e2⟩, st2, log2) ∧
      st1.history = [userMsg t1, assistantMsg c1] ∧
      st2.history = [userMsg t1, assistantMsg c1, userMsg t2, assistantMsg c2] ∧
      st1.last_reasoning = pyTruthyOpt r1 ∧
      st2.last_reasoning = pyTruthyOpt r2 ∧
      log1.map LogEntry.input = [true, false] ∧
      log2.map LogEntry.input = [true, false] := by
  simp only [convCall] at h1 h2
  refine ⟨{ st0 with
      history := [userMsg t1, assistantMsg c1]
      last_reasoning := pyTruthyOpt r1 },
    { st0 with
      history := [userMsg t1, assistantMsg c1, userMsg t2, assistantMsg c2]
      last_reasoning := pyTruthyOpt r2 },
    [⟨st0.model_name, true, count_tokens_input dims [userMsg t1] st0.system_prompt⟩,
     ⟨st0.model_name, false, count_tokens_output (some c1)⟩],
    [⟨st0.model_name, true,
       count_tokens_input dims [userMsg t1, assistantMsg c1, userMsg t2] st0.system_prompt⟩,
     ⟨st0.model_name, false, count_tokens_output (some c2)⟩],
    ?_, ?_, rfl, rfl, rfl, rfl, rfl, rfl⟩
  · unfold AI_conversation
    rw [prepare_messages_text, hh]
    dsimp only [AI_messages, AIWrapper_messages]
    simp only [List.nil_append, Option.getD_none]
    rw [h1]
    rw [show mkMessageContent ContentType.text (some c1) none none none =
      .ok (textBlock c1) from rfl]
    rfl
  · unfold AI_conversation
    rw [prepare_messages_text]
    dsimp only [AI_messages, AIWrapper_messages]
    simp only [List.cons_append, List.nil_append, Option.getD_none]
    rw [h2]
    rw [show mkMessageContent ContentType.text (some c2) none none none =
      .ok (textBlock c2) from rfl]
    rfl

/-- C6 witness: a concrete fresh client against a constant mock backend. -/
theorem c6_conversation_two_turns_witness :
    ∃ st1 st2 log1 log2,
      AI_conversation (fun s => s) (fun _ => (⟨some "ok", none, none, none⟩ : AIResponse))
        (fun _ => (0, 0)) (fun _ => .error "no loader")
        (⟨"mock-model", "sys", [], (), [], none⟩ : AI Unit) "hi" [] none none
        4096 0.0 false none = .ok (⟨some "ok", none, none, none⟩, st1, log1) ∧
      AI_conversation (fun s => s) (fun _ => (⟨some "ok", none, none, none⟩ : AIResponse))
        (fun _ => (0, 0)) (fun _ => .error "no loader")
        st1 "again" [] none none 4096 0.0 false none =
          .ok (⟨some "ok", none, none, none⟩, st2, log2) ∧
      st1.history = [userMsg "hi", assistantMsg "ok"] ∧
      st2.history = [userMsg "hi", assistantMsg "ok", userMsg "again", assistantMsg "ok"] ∧
      st1.last_reasoning = pyTruthyOpt none ∧
      st2.last_reasoning = pyTruthyOpt none ∧
      log1.map LogEntry.input = [true, false] ∧
      log2.map LogEntry.input = [true, false] :=
  c6_conversation_two_turns (fun s => s)
    (fun _ => (⟨some "ok", none, none, none⟩ : AIResponse)) (fun _ => (0, 0))
    (fun _ => .error "no loader") ⟨"mock-model", "sys", [], (), [], none⟩
    "hi" "again" "ok" "ok" none none none none none none 4096 0.0 false none
    rfl rfl rfl

/-! ## Theorems about ai_core/pricing.py and ai_core/wrappers/mock.py -/

/-- C8: for an alias present in the rate table the price is
tokens_in x rate.input/1e6 + tokens_out x rate.output/1e6; the sonnet4
rates are 3/15 per million and the 1000/500 example prices at 0.0105
(= 21/2000); an absent alias raises an error that quotes the alias and
lists every known alias (the sorted listing keeps all table keys). -/
theorem c8_compute_request_price :
    (∀ tokens_in tokens_out model_alias rates,
      alistLookup pricing_data model_alias = some rates →
      compute_request_price tokens_in tokens_out model_alias =
        .ok (tokens_in * (rates.1 / 1000000) + tokens_out * (rates.2 / 1000000))) ∧
    alistLookup pricing_data "sonnet4" = some (3, 15) ∧
    compute_request_price 1000 500 "sonnet4" = .ok (21 / 2000) ∧
    (∀ tokens_in tokens_out model_alias,
      alistLookup pricing_data model_alias = none →
      compute_request_price tokens_in tokens_out model_alias =
        .error ("Unknown model alias " ++ pyQuote model_alias ++ ". " ++
          "Available models: " ++ availableModels)) ∧
    (∀ k, k ∈ pricing_data.map Prod.fst →
      k ∈ sortStrings (pricing_data.map Prod.fst)) := by
  refine ⟨?_, ?_, ?_, ?_, ?_⟩
  · intro tokens_in tokens_out model_alias rates h
    unfold compute_request_price
    rw [h]
  · rfl
  · unfold compute_request_price
    rw [show alistLookup pricing_data "sonnet4" = some ((3 : ℚ), (15 : ℚ)) from rfl]
    dsimp only
    norm_num
  · intro tokens_in tokens_out model_alias h
    unfold compute_request_price
    rw [h]
  · decide

/-- C8 witness: the opus4 entry prices through the formula. -/
theorem c8_compute_request_price_witness :
    compute_request_price 10 20 "opus4" =
      .ok (10 * ((15 : ℚ) / 1000000) + 20 * ((75 : ℚ) / 1000000)) :=
  c8_compute_request_price.1 10 20 "opus4" (15, 75) rfl

/-- C9: the mock adapter is deterministic — two invocations whose model
name, messages, system prompt, max_tokens, temperature, tools, thinking
flag and thinking budget are equal return equal responses. -/
theorem c9_mock_deterministic (i j : MockInput)
    (hmodel : i.model_name = j.model_name)
    (hmessages : i.messages = j.messages)
    (hsystem : i.system_prompt = j.system_prompt)
    (hmax : i.max_tokens = j.max_tokens)
    (htemp : i.temperature = j.temperature)
    (htools : i.tools = j.tools)
    (hthinking : i.thinking = j.thinking)
    (hbudget : i.thinking_budget_tokens = j.thinking_budget_tokens) :
    mock_messages i = mock_messages j := by
  cases i
  cases j
  dsimp only at hmodel hmessages hsystem hmax htemp htools hthinking hbudget
  subst hmodel hmessages hsystem hmax htemp htools hthinking hbudget
  rfl

/-- C9 witness: the determinism theorem applied at a concrete request. -/
theorem c9_mock_deterministic_witness :
    mock_messages ⟨"mock-model", [userMsg "hello"], "sys", 4096, 0.0, none, true, none⟩ =
      mock_messages ⟨"mock-model", [userMsg "hello"], "sys", 4096, 0.0, none, true, none⟩ :=
  c9_mock_deterministic
    ⟨"mock-model", [userMsg "hello"], "sys", 4096, 0.0, none, true, none⟩
    ⟨"mock-model", [userMsg "hello"], "sys", 4096, 0.0, none, true, none⟩
    rfl rfl rfl rfl rfl rfl rfl rfl
